import Mathlib

/-!
Verification of the smart-garden-bot watering policy core.

Shallow embedding of the decision logic in src/bot.py (functions
`load_config`, `save_config`, `update_config`, `get_sensor_data`,
`get_moisture_status`, `check_watering_restrictions`, `water_plant`,
and the confirmation handler that sets the skip-checks flag) and of the
alternative settings store in src/config.py.

Modelling conventions:
- Calendar dates are integers (day ordinals); timestamps are integer
  seconds.  `datetime.now()` is observed as a `Clock` carrying both the
  timestamp and its calendar date.  The source stores dates with
  `str(today)` and timestamps with `now.isoformat()` and parses them back
  with `datetime.fromisoformat`; since that round trip is the identity,
  dates and timestamps are stored directly as integers here.
- Persisted JSON values are modelled well-typed.  A key that is absent
  from the file, or present with JSON null where the merged default is
  also null, is modelled as `none`.
- `datetime.fromisoformat(None)` raises; an evaluation that would raise
  is modelled by returning `none` in the verdict position.
- File writes are modelled on their success path: `save_config` replaces
  the stored file with the full record.
-/

/-- One observation of `datetime.now()`: `ts` is the timestamp in seconds,
`day` is the calendar date `.date()` as a day ordinal. -/
structure Clock where
  ts : Int
  day : Int
deriving DecidableEq

/-- The in-memory configuration dict as produced by `load_config` in
src/bot.py: every key of `DEFAULT_CONFIG` is present; the extra key
`dont_ask_again_date` (not in the defaults) may be absent (`none`). -/
structure Config where
  auto_mode : Bool
  auto_mode_type : String
  watering_duration : Int
  schedule_morning_time : String
  schedule_evening_time : String
  notifications : Bool
  moisture_threshold : Int
  report_interval : Int
  last_watering : Option Int
  watering_count_today : Int
  last_watering_date : Option Int
  dont_ask_again_today : Bool
  dont_ask_again_date : Option Int
deriving DecidableEq

/-- A persisted config.json dict: every key may be absent. -/
structure PartialConfig where
  auto_mode : Option Bool := none
  auto_mode_type : Option String := none
  watering_duration : Option Int := none
  schedule_morning_time : Option String := none
  schedule_evening_time : Option String := none
  notifications : Option Bool := none
  moisture_threshold : Option Int := none
  report_interval : Option Int := none
  last_watering : Option Int := none
  watering_count_today : Option Int := none
  last_watering_date : Option Int := none
  dont_ask_again_today : Option Bool := none
  dont_ask_again_date : Option Int := none
deriving DecidableEq

/-- The state of the persisted config.json file. -/
inductive StoredFile where
  | absent
  | unreadable
  | content (p : PartialConfig)
deriving DecidableEq

/-- DEFAULT_CONFIG of src/bot.py (lines 32-45).  The resulting in-memory
dict has no `dont_ask_again_date` key, hence `none` for that field. -/
def DEFAULT_CONFIG : Config where
  auto_mode := false
  auto_mode_type := "smart"
  watering_duration := 3
  schedule_morning_time := "09:00"
  schedule_evening_time := "19:00"
  notifications := true
  moisture_threshold := 430
  report_interval := 30
  last_watering := none
  watering_count_today := 0
  last_watering_date := none
  dont_ask_again_today := false
  dont_ask_again_date := none

/-- The merge loop of src/bot.py `load_config` (lines 98-100): every key of
`DEFAULT_CONFIG` missing from the stored dict is filled with its default;
present keys are kept.  `dont_ask_again_date` is not a default key and is
kept as stored. -/
def fillDefaults (p : PartialConfig) : Config where
  auto_mode := p.auto_mode.getD DEFAULT_CONFIG.auto_mode
  auto_mode_type := p.auto_mode_type.getD DEFAULT_CONFIG.auto_mode_type
  watering_duration := p.watering_duration.getD DEFAULT_CONFIG.watering_duration
  schedule_morning_time := p.schedule_morning_time.getD DEFAULT_CONFIG.schedule_morning_time
  schedule_evening_time := p.schedule_evening_time.getD DEFAULT_CONFIG.schedule_evening_time
  notifications := p.notifications.getD DEFAULT_CONFIG.notifications
  moisture_threshold := p.moisture_threshold.getD DEFAULT_CONFIG.moisture_threshold
  report_interval := p.report_interval.getD DEFAULT_CONFIG.report_interval
  last_watering := p.last_watering
  watering_count_today := p.watering_count_today.getD DEFAULT_CONFIG.watering_count_today
  last_watering_date := p.last_watering_date
  dont_ask_again_today := p.dont_ask_again_today.getD DEFAULT_CONFIG.dont_ask_again_today
  dont_ask_again_date := p.dont_ask_again_date

/-- src/bot.py `load_config` (lines 92-105): absent or unreadable file
yields a copy of the defaults; otherwise defaults are merged into the
stored dict. -/
def load_config : StoredFile → Config
  | .absent => DEFAULT_CONFIG
  | .unreadable => DEFAULT_CONFIG
  | .content p => fillDefaults p

/-- The full dict written back by `json.dump` in `save_config`. -/
def toPartial (c : Config) : PartialConfig where
  auto_mode := some c.auto_mode
  auto_mode_type := some c.auto_mode_type
  watering_duration := some c.watering_duration
  schedule_morning_time := some c.schedule_morning_time
  schedule_evening_time := some c.schedule_evening_time
  notifications := some c.notifications
  moisture_threshold := some c.moisture_threshold
  report_interval := some c.report_interval
  last_watering := c.last_watering
  watering_count_today := some c.watering_count_today
  last_watering_date := c.last_watering_date
  dont_ask_again_today := some c.dont_ask_again_today
  dont_ask_again_date := c.dont_ask_again_date

/-- src/bot.py `save_config` (lines 107-115), successful-write path. -/
def save_config (c : Config) : StoredFile :=
  .content (toPartial c)

/-- The key sets actually passed to `update_config` by the menu handlers
in src/bot.py (auto-mode toggles, watering duration, notifications and
schedule times); no handler updates the watering-history keys this way. -/
structure MenuUpdate where
  auto_mode : Option Bool := none
  auto_mode_type : Option String := none
  watering_duration : Option Int := none
  notifications : Option Bool := none
  schedule_morning_time : Option String := none
  schedule_evening_time : Option String := none
deriving DecidableEq

/-- src/bot.py `update_config` (lines 117-122): load, override the given
keys, save, return the merged record. -/
def update_config (u : MenuUpdate) (store : StoredFile) : StoredFile × Config :=
  let config := load_config store
  let merged : Config :=
    { config with
      auto_mode := u.auto_mode.getD config.auto_mode
      auto_mode_type := u.auto_mode_type.getD config.auto_mode_type
      watering_duration := u.watering_duration.getD config.watering_duration
      notifications := u.notifications.getD config.notifications
      schedule_morning_time := u.schedule_morning_time.getD config.schedule_morning_time
      schedule_evening_time := u.schedule_evening_time.getD config.schedule_evening_time }
  (save_config merged, merged)

/-- DEFAULT_CONFIG of src/config.py (lines 7-13): only five keys. -/
def configpy_DEFAULT_CONFIG : PartialConfig where
  auto_mode := some false
  watering_duration := some 3
  notifications := some true
  moisture_threshold := some 400
  report_interval := some 30

/-- src/config.py `load_config` (lines 15-23): absent or unreadable file
yields a copy of that module's defaults; a readable file is returned
verbatim, with no default-merging of missing keys. -/
def configpy_load_config : StoredFile → PartialConfig
  | .absent => configpy_DEFAULT_CONFIG
  | .unreadable => configpy_DEFAULT_CONFIG
  | .content p => p

/-- A sensor reading as built by `get_sensor_data` in src/bot.py. -/
structure SensorData where
  moisture_raw : Int
  moisture_percent : Int
  temperature : Int
  status : Option String
deriving DecidableEq

/-- The percent conversion of src/bot.py lines 134-137: the float
expression `(750 - raw) / (750 - 305) * 100` truncated toward zero by
`int(...)` (modelled exactly over the integers with truncating division),
then clamped to [0, 100]. -/
def moisturePercentOf (raw : Int) : Int :=
  max 0 (min 100 (Int.tdiv ((750 - raw) * 100) 445))

/-- src/bot.py `get_sensor_data` (lines 125-152): `none` when the
controller is disconnected, when the moisture request fails, or when it
yields no value; `device` is the `(raw, status)` pair from
`nodemcu.get_moisture()` with `none` for a failed or empty reply, and
`temperature` is the emulated random temperature. -/
def get_sensor_data (connected : Bool) (device : Option (Int × Option String))
    (temperature : Int) : Option SensorData :=
  if connected = false then none
  else
    match device with
    | none => none
    | some (raw, st) => some ⟨raw, moisturePercentOf raw, temperature, st⟩

/-- src/bot.py `get_moisture_status` (lines 155-170). -/
def get_moisture_status (moisture_raw : Int) : String × String :=
  if 530 ≤ moisture_raw then ("🚨 ОЧЕНЬ СУХО", "Срочный полив требуется!")
  else if 430 ≤ moisture_raw then ("⚠️ СУХО", "Рекомендуется полив")
  else if 350 ≤ moisture_raw then ("✅ НОРМА", "Влажность в норме")
  else if 320 ≤ moisture_raw then ("🌟 ИДЕАЛЬНО", "Оптимальная влажность")
  else if 310 ≤ moisture_raw then ("🌧️ ВЛАЖНО", "Полив не требуется")
  else if 305 ≤ moisture_raw then ("🚨 ПЕРЕУВЛАЖНЕНИЕ", "Опасно для растения")
  else ("💦 СЛИШКОМ МОКРО", "Возможно гниение корней")

/-- The verdict triple returned by `check_watering_restrictions`. -/
structure Verdict where
  allowed : Bool
  message : String
  level : String
deriving DecidableEq

def noLinkMessage : String :=
  "❌ НЕТ СВЯЗИ С СИСТЕМОЙ\n\nНе удается подключиться к системе полива. Проверьте подключение NodeMCU."

def noDataMessage : String :=
  "❌ НЕТ ДАННЫХ О ВЛАЖНОСТИ\n\nНе удалось получить данные с датчика влажности."

def canWaterMessage : String := "✅ Можно поливать"

def tooFrequentMessage : String :=
  "🚨 СЛИШКОМ ЧАСТЫЙ ПОЛИВ!\n\nПрошло менее 6 часов с последнего полива. Это может навредить растению."

def alreadyWateredMessage (count hours : Int) : String :=
  "⚠️ ВНИМАНИЕ!\n\nСегодня уже был полив (" ++ toString count ++ " раз). Прошло " ++ toString hours ++ " часов."

def wateredInfoMessage (hours : Int) : String :=
  "💡 ИНФОРМАЦИЯ\n\nСегодня уже был полив, но прошло " ++ toString hours ++ " часов."

def tooWetMessage (raw : Int) : String :=
  "❌ Влажность почвы слишком высокая (" ++ toString raw ++ ")."

/-- Whether the skip-checks flag is consulted as set after the daily
normalization: the stored flag is true and its stored date is today. -/
def skipEffective (store : StoredFile) (clock : Clock) : Bool :=
  (load_config store).dont_ask_again_today &&
    decide ((load_config store).dont_ask_again_date = some clock.day)

/-- src/bot.py `check_watering_restrictions` lines 181-186: reset the
skip-checks flag and persist when its stored date is not today. -/
def normalizeSkipFlag (store : StoredFile) (clock : Clock) : Config × StoredFile :=
  let config := load_config store
  if config.dont_ask_again_date ≠ some clock.day then
    let c := { config with dont_ask_again_today := false, dont_ask_again_date := some clock.day }
    (c, save_config c)
  else (config, store)

/-- src/bot.py `check_watering_restrictions` lines 192-209, the frequency
check.  The outer `none` models the `datetime.fromisoformat(None)` crash
when `last_watering` is null while a same-day watering is recorded; the
inner option is the warning message (with its level). -/
def frequencyCheck (config : Config) (clock : Clock) : Option (Option String × String) :=
  match config.last_watering_date with
  | none => some (none, "ok")
  | some lastDate =>
    if lastDate = clock.day ∧ 1 ≤ config.watering_count_today then
      match config.last_watering with
      | none => none
      | some lastTs =>
        if clock.ts - lastTs < 21600 then some (some tooFrequentMessage, "danger")
        else if clock.ts - lastTs < 43200 then
          some (some (alreadyWateredMessage config.watering_count_today
            (Int.tdiv (clock.ts - lastTs) 3600)), "warning")
        else some (some (wateredInfoMessage (Int.tdiv (clock.ts - lastTs) 3600)), "info")
    else some (none, "ok")

/-- src/bot.py `check_watering_restrictions` lines 216-221, the soil
over-moisture check: below raw 310 the over-moisture notice is appended
to (or set as) the warning message and the level becomes danger. -/
def applySoilMoistureCheck (raw : Int) (warn : Option String × String) :
    Option String × String :=
  if raw < 310 then
    match warn.1 with
    | some m => (some (m ++ "\n\n" ++ tooWetMessage raw), "danger")
    | none => (some (tooWetMessage raw), "danger")
  else warn

/-- src/bot.py `check_watering_restrictions` lines 188-226: everything
after the skip-flag normalization.  `config` is the dict as of line 188;
no code after line 186 writes the store, so this part is pure.  The
verdict is `none` when the evaluation raises (see `frequencyCheck`). -/
def checkAfterSkipReset (config : Config) (clock : Clock)
    (sensor : Option SensorData) : Option Verdict :=
  if config.dont_ask_again_today then some ⟨true, canWaterMessage, "ok"⟩
  else
    match frequencyCheck config clock with
    | none => none
    | some warn =>
      match sensor with
      | none => some ⟨false, noDataMessage, "danger"⟩
      | some d =>
        match applySoilMoistureCheck d.moisture_raw warn with
        | (some m, lvl) => some ⟨true, m, lvl⟩
        | (none, _) => some ⟨true, canWaterMessage, "ok"⟩

/-- src/bot.py `check_watering_restrictions` (lines 173-226).  `sensor` is
the result of the `get_sensor_data()` call at line 212.  The second
component is the stored file after the side effect of line 186. -/
def check_watering_restrictions (connected : Bool) (store : StoredFile)
    (clock : Clock) (sensor : Option SensorData) : Option Verdict × StoredFile :=
  if connected = false then
    (some ⟨false, noLinkMessage, "danger"⟩, store)
  else
    let cs := normalizeSkipFlag store clock
    (checkAfterSkipReset cs.1 clock sensor, cs.2)

def noConnectionMessage : String := "❌ НЕТ СВЯЗИ С СИСТЕМОЙ ПОЛИВА"

/-- src/bot.py `water_plant` (lines 345-365).  `deviceResult` is the
`(success, message)` pair from `nodemcu.water_plant(duration)`; on
success the watering history is updated and persisted, otherwise the
stored file is untouched. -/
def water_plant (connected : Bool) (deviceResult : Bool × String)
    (store : StoredFile) (clock : Clock) : (Bool × String) × StoredFile :=
  if connected = false then ((false, noConnectionMessage), store)
  else if deviceResult.1 then
    let config := load_config store
    let config1 :=
      if config.last_watering_date ≠ some clock.day then
        { config with watering_count_today := 0 }
      else config
    let config2 :=
      { config1 with
        last_watering := some clock.ts
        last_watering_date := some clock.day
        watering_count_today := config1.watering_count_today + 1 }
    (deviceResult, save_config config2)
  else (deviceResult, store)

/-- The confirmation handler of src/bot.py lines 680-683: set the
skip-checks flag for today and persist. -/
def setDontAskToday (store : StoredFile) (clock : Clock) : StoredFile :=
  save_config
    { load_config store with
      dont_ask_again_today := true
      dont_ask_again_date := some clock.day }

/-- Stored-file states reachable from the initial state (no config file)
through the program's own write paths: watering attempts, policy
evaluations (which may persist the skip-flag reset), the confirmation
handler that sets the skip flag, and the menu-driven `update_config`
calls. -/
inductive Reach : StoredFile → Prop where
  | init : Reach .absent
  | water (connected : Bool) (deviceResult : Bool × String) (clock : Clock)
      {s : StoredFile} : Reach s → Reach (water_plant connected deviceResult s clock).2
  | restrict (connected : Bool) (clock : Clock) (sensor : Option SensorData)
      {s : StoredFile} : Reach s → Reach (check_watering_restrictions connected s clock sensor).2
  | dontAsk (clock : Clock) {s : StoredFile} : Reach s → Reach (setDontAskToday s clock)
  | menu (u : MenuUpdate) {s : StoredFile} : Reach s → Reach (update_config u s).1

/-! ## Basic lemmas -/

theorem load_save (c : Config) : load_config (save_config c) = c := rfl

theorem check_true_fst (s : StoredFile) (k : Clock) (sd : Option SensorData) :
    (check_watering_restrictions true s k sd).1 =
      checkAfterSkipReset (normalizeSkipFlag s k).1 k sd := rfl

theorem check_true_snd (s : StoredFile) (k : Clock) (sd : Option SensorData) :
    (check_watering_restrictions true s k sd).2 = (normalizeSkipFlag s k).2 := rfl

theorem norm_flag (s : StoredFile) (k : Clock) :
    (normalizeSkipFlag s k).1.dont_ask_again_today = skipEffective s k := by
  unfold normalizeSkipFlag skipEffective
  by_cases h : (load_config s).dont_ask_again_date = some k.day <;> simp [h]

theorem norm_fst_lw (s : StoredFile) (k : Clock) :
    (normalizeSkipFlag s k).1.last_watering = (load_config s).last_watering := by
  unfold normalizeSkipFlag
  by_cases h : (load_config s).dont_ask_again_date = some k.day <;> simp [h]

theorem norm_fst_lwd (s : StoredFile) (k : Clock) :
    (normalizeSkipFlag s k).1.last_watering_date = (load_config s).last_watering_date := by
  unfold normalizeSkipFlag
  by_cases h : (load_config s).dont_ask_again_date = some k.day <;> simp [h]

theorem norm_fst_count (s : StoredFile) (k : Clock) :
    (normalizeSkipFlag s k).1.watering_count_today = (load_config s).watering_count_today := by
  unfold normalizeSkipFlag
  by_cases h : (load_config s).dont_ask_again_date = some k.day <;> simp [h]

theorem freq_norm (s : StoredFile) (k : Clock) :
    frequencyCheck (normalizeSkipFlag s k).1 k = frequencyCheck (load_config s) k := by
  unfold normalizeSkipFlag
  by_cases h : (load_config s).dont_ask_again_date = some k.day
  · simp [h]
  · simp only [ne_eq, h, not_false_eq_true, if_true]
    rfl

theorem norm_snd_of_eq (s : StoredFile) (k : Clock)
    (h : (load_config s).dont_ask_again_date = some k.day) :
    (normalizeSkipFlag s k).2 = s := by
  unfold normalizeSkipFlag
  simp [h]

/-! ## C2: moisture classification bands -/

/-- C2: `get_moisture_status` maps each raw value to exactly one of the
seven bands, evaluated top-down; the boundary values 305, 310, 320, 350,
430, 530 belong to the drier-labelled band, and the seven half-open bands
partition the integers (each iff gives membership exactly on the stated
range, so there are no gaps and no overlaps). -/
theorem C2_moisture_bands (r : Int) :
    (530 ≤ r ↔ get_moisture_status r = ("🚨 ОЧЕНЬ СУХО", "Срочный полив требуется!")) ∧
    ((430 ≤ r ∧ r < 530) ↔ get_moisture_status r = ("⚠️ СУХО", "Рекомендуется полив")) ∧
    ((350 ≤ r ∧ r < 430) ↔ get_moisture_status r = ("✅ НОРМА", "Влажность в норме")) ∧
    ((320 ≤ r ∧ r < 350) ↔ get_moisture_status r = ("🌟 ИДЕАЛЬНО", "Оптимальная влажность")) ∧
    ((310 ≤ r ∧ r < 320) ↔ get_moisture_status r = ("🌧️ ВЛАЖНО", "Полив не требуется")) ∧
    ((305 ≤ r ∧ r < 310) ↔ get_moisture_status r = ("🚨 ПЕРЕУВЛАЖНЕНИЕ", "Опасно для растения")) ∧
    (r < 305 ↔ get_moisture_status r = ("💦 СЛИШКОМ МОКРО", "Возможно гниение корней")) := by
  unfold get_moisture_status
  split_ifs with h1 h2 h3 h4 h5 h6 <;>
    refine ⟨?_, ?_, ?_, ?_, ?_, ?_, ?_⟩ <;> simp_all <;> omega

/-- C2 witness: the boundary raw value 530 is VERY DRY and 529 is DRY. -/
theorem C2_witness :
    get_moisture_status 530 = ("🚨 ОЧЕНЬ СУХО", "Срочный полив требуется!") ∧
    get_moisture_status 529 = ("⚠️ СУХО", "Рекомендуется полив") :=
  ⟨(C2_moisture_bands 530).1.mp (by decide),
   (C2_moisture_bands 529).2.1.mp (by decide)⟩

/-! ## C5: skip-checks bypass -/

/-- C5: with the connection up, the skip flag true and its date today,
`check_watering_restrictions` returns allowed with severity ok
immediately (and does not even consult the sensor or the watering
history), leaving the stored file unchanged. -/
theorem C5_skip_bypass (store : StoredFile) (clock : Clock) (sensor : Option SensorData)
    (hflag : (load_config store).dont_ask_again_today = true)
    (hdate : (load_config store).dont_ask_again_date = some clock.day) :
    check_watering_restrictions true store clock sensor =
      (some ⟨true, canWaterMessage, "ok"⟩, store) := by
  unfold check_watering_restrictions checkAfterSkipReset normalizeSkipFlag
  simp [hdate, hflag]

def C5store : StoredFile :=
  .content
    { last_watering := some 940
      last_watering_date := some 20
      watering_count_today := some 1
      dont_ask_again_today := some true
      dont_ask_again_date := some 20 }

/-- C5 witness: bypass holds even with raw moisture 300 and a watering
recorded one minute (60 seconds) earlier on the same day. -/
theorem C5_witness :
    check_watering_restrictions true C5store ⟨1000, 20⟩ (some ⟨300, 101, 22, some "wet"⟩) =
      (some ⟨true, canWaterMessage, "ok"⟩, C5store) :=
  C5_skip_bypass C5store ⟨1000, 20⟩ (some ⟨300, 101, 22, some "wet"⟩) rfl rfl

/-! ## C7: outcome recording on success -/

/-- C7: a successful watering resets the counter first when the stored
date is stale, then records the timestamp, today's date and the
incremented counter, and persists them; a second same-day success
increments again and updates the timestamp again, and `load_config`
reflects the persisted values. -/
theorem C7_record_watering (store : StoredFile) (k1 k2 : Clock) (m1 m2 : String)
    (hday : k1.day = k2.day) :
    (load_config (water_plant true (true, m1) store k1).2).last_watering = some k1.ts ∧
    (load_config (water_plant true (true, m1) store k1).2).last_watering_date = some k1.day ∧
    (load_config (water_plant true (true, m1) store k1).2).watering_count_today =
      (if (load_config store).last_watering_date = some k1.day
        then (load_config store).watering_count_today else 0) + 1 ∧
    (load_config (water_plant true (true, m2)
        (water_plant true (true, m1) store k1).2 k2).2).last_watering = some k2.ts ∧
    (load_config (water_plant true (true, m2)
        (water_plant true (true, m1) store k1).2 k2).2).last_watering_date = some k2.day ∧
    (load_config (water_plant true (true, m2)
        (water_plant true (true, m1) store k1).2 k2).2).watering_count_today =
      (load_config (water_plant true (true, m1) store k1).2).watering_count_today + 1 := by
  unfold water_plant
  by_cases h : (load_config store).last_watering_date = some k1.day <;>
    simp [← hday, h, load_save]

/-- C7 witness: two same-day successes starting from no config file give
counts 1 then 2 with both timestamps recorded. -/
theorem C7_witness :
    (load_config (water_plant true (true, "Полив выполнен успешно")
        (water_plant true (true, "Полив выполнен успешно") .absent ⟨1000, 5⟩).2
        ⟨5000, 5⟩).2).watering_count_today = 2 := by
  have h := C7_record_watering .absent ⟨1000, 5⟩ ⟨5000, 5⟩
    "Полив выполнен успешно" "Полив выполнен успешно" rfl
  rw [h.2.2.2.2.2, h.2.2.1]
  decide

/-! ## C8: failed watering leaves history untouched -/

/-- C8: when the controller is disconnected or the actuator reports
failure, `water_plant` leaves the stored file (hence the whole watering
history) untouched and persists nothing. -/
theorem C8_failed_watering_untouched (store : StoredFile) (clock : Clock)
    (msg : String) (deviceResult : Bool × String) :
    (water_plant false deviceResult store clock).2 = store ∧
    (water_plant false deviceResult store clock).1.1 = false ∧
    (water_plant true (false, msg) store clock).2 = store ∧
    load_config (water_plant true (false, msg) store clock).2 = load_config store :=
  ⟨rfl, rfl, rfl, rfl⟩

/-! ## C9: settings-store load semantics -/

/-- C9 counterexample: src/config.py `load_config` returns a present file
verbatim; a record missing the notifications key keeps it missing instead
of being filled from that module's defaults. -/
theorem C9_counterexample :
    configpy_load_config (.content { auto_mode := some true }) =
      { auto_mode := some true } ∧
    (PartialConfig.notifications { auto_mode := some true }) = none ∧
    configpy_DEFAULT_CONFIG.notifications = some true ∧
    (none : Option Bool) ≠ some true :=
  ⟨rfl, rfl, rfl, by decide⟩

/-- C9 amended: src/bot.py `load_config` returns pure defaults for an
absent or unreadable file and upgrades partial records, keeping every
present key and filling only missing keys from the defaults; src/config.py
`load_config` returns defaults for an absent or unreadable file but
returns a present record verbatim without filling missing keys. -/
theorem C9_amended_load (p : PartialConfig) :
    load_config .absent = DEFAULT_CONFIG ∧
    load_config .unreadable = DEFAULT_CONFIG ∧
    (load_config (.content p)).auto_mode = p.auto_mode.getD DEFAULT_CONFIG.auto_mode ∧
    (load_config (.content p)).auto_mode_type =
      p.auto_mode_type.getD DEFAULT_CONFIG.auto_mode_type ∧
    (load_config (.content p)).watering_duration =
      p.watering_duration.getD DEFAULT_CONFIG.watering_duration ∧
    (load_config (.content p)).schedule_morning_time =
      p.schedule_morning_time.getD DEFAULT_CONFIG.schedule_morning_time ∧
    (load_config (.content p)).schedule_evening_time =
      p.schedule_evening_time.getD DEFAULT_CONFIG.schedule_evening_time ∧
    (load_config (.content p)).notifications =
      p.notifications.getD DEFAULT_CONFIG.notifications ∧
    (load_config (.content p)).moisture_threshold =
      p.moisture_threshold.getD DEFAULT_CONFIG.moisture_threshold ∧
    (load_config (.content p)).report_interval =
      p.report_interval.getD DEFAULT_CONFIG.report_interval ∧
    (load_config (.content p)).last_watering = p.last_watering ∧
    (load_config (.content p)).watering_count_today =
      p.watering_count_today.getD DEFAULT_CONFIG.watering_count_today ∧
    (load_config (.content p)).last_watering_date = p.last_watering_date ∧
    (load_config (.content p)).dont_ask_again_today =
      p.dont_ask_again_today.getD DEFAULT_CONFIG.dont_ask_again_today ∧
    (load_config (.content p)).dont_ask_again_date = p.dont_ask_again_date ∧
    configpy_load_config .absent = configpy_DEFAULT_CONFIG ∧
    configpy_load_config .unreadable = configpy_DEFAULT_CONFIG ∧
    configpy_load_config (.content p) = p :=
  ⟨rfl, rfl, rfl, rfl, rfl, rfl, rfl, rfl, rfl, rfl, rfl, rfl, rfl, rfl, rfl, rfl, rfl, rfl⟩

/-! ## C1: the no-sensor-data gate -/

theorem skipEffective_iff (s : StoredFile) (k : Clock) :
    skipEffective s k = true ↔
      ((load_config s).dont_ask_again_today = true ∧
       (load_config s).dont_ask_again_date = some k.day) := by
  unfold skipEffective
  simp [Bool.and_eq_true]

theorem allowed_false_only_no_data (config : Config) (k : Clock)
    (sd : Option SensorData) (v : Verdict)
    (h : checkAfterSkipReset config k sd = some v) :
    v.allowed = false → sd = none := by
  unfold checkAfterSkipReset at h
  split at h
  · injection h with h
    subst h
    intro hall
    simp at hall
  · split at h
    · exact Option.noConfusion h
    · split at h
      · intro _
        rfl
      · split at h <;> injection h with h <;> subst h <;> intro hall <;> simp at hall

def C1store : StoredFile :=
  .content
    { dont_ask_again_today := some true
      dont_ask_again_date := some 20 }

/-- C1 counterexample: with the controller connected, the skip-checks flag
set for today, and the moisture request yielding no value (sensor
`none`), the code returns allowed with severity ok — not the
allowed-false danger verdict the claim requires for every no-sensor-data
case. -/
theorem C1_counterexample :
    (check_watering_restrictions true C1store ⟨0, 20⟩ none).1 =
      some ⟨true, canWaterMessage, "ok"⟩ ∧
    (check_watering_restrictions true C1store ⟨0, 20⟩ none).1 ≠
      some ⟨false, noDataMessage, "danger"⟩ := by
  constructor
  · rfl
  · decide

/-- C1 amended: a disconnected controller always yields the allowed-false
danger no-link verdict, untouched store, regardless of settings.  With
the controller connected but no sensor value, the evaluation yields the
allowed-false danger no-data verdict (or raises) only when the
skip-checks bypass is not in effect; when the bypass is in effect it
returns allowed-ok before consulting the sensor.  Allowed is false only
in the no-link/no-data cases: any verdict with live sensor data has
allowed true. -/
theorem C1_amended (store : StoredFile) (clock : Clock) (sensor : Option SensorData) :
    check_watering_restrictions false store clock sensor =
      (some ⟨false, noLinkMessage, "danger"⟩, store) ∧
    (sensor = none → skipEffective store clock = false →
      (check_watering_restrictions true store clock sensor).1 = none ∨
      (check_watering_restrictions true store clock sensor).1 =
        some ⟨false, noDataMessage, "danger"⟩) ∧
    (sensor = none → skipEffective store clock = true →
      check_watering_restrictions true store clock sensor =
        (some ⟨true, canWaterMessage, "ok"⟩, store)) ∧
    (∀ v : Verdict, (check_watering_restrictions true store clock sensor).1 = some v →
      v.allowed = false → sensor = none) := by
  refine ⟨rfl, ?_, ?_, ?_⟩
  · intro hs hskip
    subst hs
    rw [check_true_fst]
    unfold checkAfterSkipReset
    rw [norm_flag, hskip]
    simp only [Bool.false_eq_true, if_false]
    cases hf : frequencyCheck (normalizeSkipFlag store clock).1 clock with
    | none => exact Or.inl rfl
    | some warn => exact Or.inr rfl
  · intro hs hskip
    subst hs
    obtain ⟨hflag, hdate⟩ := (skipEffective_iff store clock).mp hskip
    unfold check_watering_restrictions checkAfterSkipReset normalizeSkipFlag
    simp [hdate, hflag]
  · intro v hv
    rw [check_true_fst] at hv
    exact allowed_false_only_no_data _ clock sensor v hv

/-- C1 witness: connected, defaults on disk (bypass not in effect), no
sensor value — the amended theorem yields the no-data danger verdict. -/
theorem C1_witness :
    (check_watering_restrictions true StoredFile.absent ⟨0, 0⟩ none).1 = none ∨
    (check_watering_restrictions true StoredFile.absent ⟨0, 0⟩ none).1 =
      some ⟨false, noDataMessage, "danger"⟩ :=
  (C1_amended .absent ⟨0, 0⟩ none).2.1 rfl rfl

/-! ## C3: the frequency check -/

/-- C3: with live sensor data (raw at least 310, so no over-moisture
escalation), the bypass not in effect, a same-day last watering and a
positive daily count, the elapsed time since the last watering selects
the severity: under 6 hours danger, 6 to 12 hours warning, 12 hours or
more info — all with allowed true; with no same-day prior watering the
verdict is the plain allowed-ok one. -/
theorem C3_frequency (store : StoredFile) (clock : Clock) (d : SensorData) (ts : Int)
    (hskip : skipEffective store clock = false)
    (hraw : 310 ≤ d.moisture_raw) :
    ((load_config store).last_watering_date = some clock.day →
      1 ≤ (load_config store).watering_count_today →
      (load_config store).last_watering = some ts →
      ((clock.ts - ts < 21600 →
        (check_watering_restrictions true store clock (some d)).1 =
          some ⟨true, tooFrequentMessage, "danger"⟩) ∧
       (21600 ≤ clock.ts - ts → clock.ts - ts < 43200 →
        (check_watering_restrictions true store clock (some d)).1 =
          some ⟨true, alreadyWateredMessage (load_config store).watering_count_today
            (Int.tdiv (clock.ts - ts) 3600), "warning"⟩) ∧
       (43200 ≤ clock.ts - ts →
        (check_watering_restrictions true store clock (some d)).1 =
          some ⟨true, wateredInfoMessage (Int.tdiv (clock.ts - ts) 3600), "info"⟩))) ∧
    (¬((load_config store).last_watering_date = some clock.day ∧
        1 ≤ (load_config store).watering_count_today) →
      (check_watering_restrictions true store clock (some d)).1 =
        some ⟨true, canWaterMessage, "ok"⟩) := by
  constructor
  · intro hld hcount hts
    refine ⟨fun h6 => ?_, fun h6 h12 => ?_, fun h12 => ?_⟩
    · rw [check_true_fst]
      unfold checkAfterSkipReset
      rw [norm_flag, hskip]
      simp only [Bool.false_eq_true, if_false]
      rw [freq_norm]
      unfold frequencyCheck
      simp [hld, hts, hcount, applySoilMoistureCheck, h6,
        show ¬(d.moisture_raw < 310) by omega]
    · rw [check_true_fst]
      unfold checkAfterSkipReset
      rw [norm_flag, hskip]
      simp only [Bool.false_eq_true, if_false]
      rw [freq_norm]
      unfold frequencyCheck
      simp [hld, hts, hcount, applySoilMoistureCheck, h12,
        show ¬(clock.ts - ts < 21600) by omega,
        show ¬(d.moisture_raw < 310) by omega]
    · rw [check_true_fst]
      unfold checkAfterSkipReset
      rw [norm_flag, hskip]
      simp only [Bool.false_eq_true, if_false]
      rw [freq_norm]
      unfold frequencyCheck
      simp [hld, hts, hcount, applySoilMoistureCheck,
        show ¬(clock.ts - ts < 21600) by omega,
        show ¬(clock.ts - ts < 43200) by omega,
        show ¬(d.moisture_raw < 310) by omega]
  · intro hng
    rw [check_true_fst]
    unfold checkAfterSkipReset
    rw [norm_flag, hskip]
    simp only [Bool.false_eq_true, if_false]
    rw [freq_norm]
    unfold frequencyCheck
    cases hld : (load_config store).last_watering_date with
    | none => simp [applySoilMoistureCheck, show ¬(d.moisture_raw < 310) by omega]
    | some ld =>
      have hg : ¬(ld = clock.day ∧ 1 ≤ (load_config store).watering_count_today) := by
        rintro ⟨h1, h2⟩
        exact hng ⟨by rw [hld, h1], h2⟩
      simp [hg, applySoilMoistureCheck, show ¬(d.moisture_raw < 310) by omega]

def C3store : StoredFile :=
  .content
    { last_watering := some 0
      last_watering_date := some 7
      watering_count_today := some 1 }

/-- C3 witness: last watering 3 hours (10800 seconds) ago on the same
day, raw moisture 400 — the danger branch of the frequency check. -/
theorem C3_witness :
    (check_watering_restrictions true C3store ⟨10800, 7⟩
        (some ⟨400, 78, 20, none⟩)).1 =
      some ⟨true, tooFrequentMessage, "danger"⟩ :=
  ((C3_frequency C3store ⟨10800, 7⟩ ⟨400, 78, 20, none⟩ 0
      rfl (by decide)).1 rfl (by decide) rfl).1 (by decide)

/-! ## C4: the over-moisture check -/

/-- C4: with live sensor data showing raw moisture below 310 and the
bypass not in effect, any verdict the evaluation produces has allowed
true and severity danger, and its message ends with the over-moisture
notice; when the frequency check also produced a warning, the two
messages are concatenated (frequency message first), so the over-moisture
check only ever raises the severity to danger, never lowers it. -/
theorem C4_over_moisture (store : StoredFile) (clock : Clock) (d : SensorData)
    (v : Verdict) (s' : StoredFile)
    (h : check_watering_restrictions true store clock (some d) = (some v, s'))
    (hraw : d.moisture_raw < 310)
    (hskip : skipEffective store clock = false) :
    v.allowed = true ∧ v.level = "danger" ∧
    (∃ pre, v.message = pre ++ tooWetMessage d.moisture_raw) ∧
    (∀ m lvl, frequencyCheck (load_config store) clock = some (some m, lvl) →
      v.message = m ++ "\n\n" ++ tooWetMessage d.moisture_raw) := by
  have h1 : checkAfterSkipReset (normalizeSkipFlag store clock).1 clock (some d) = some v := by
    rw [← check_true_fst, h]
  unfold checkAfterSkipReset at h1
  rw [norm_flag, hskip] at h1
  simp only [Bool.false_eq_true, if_false] at h1
  rw [freq_norm] at h1
  cases hf : frequencyCheck (load_config store) clock with
  | none =>
    rw [hf] at h1
    exact Option.noConfusion h1
  | some warn =>
    rw [hf] at h1
    obtain ⟨wm, wl⟩ := warn
    dsimp only at h1
    cases wm with
    | none =>
      have hA : applySoilMoistureCheck d.moisture_raw (none, wl) =
          (some (tooWetMessage d.moisture_raw), "danger") := by
        unfold applySoilMoistureCheck
        rw [if_pos hraw]
      rw [hA] at h1
      have hv : v = ⟨true, tooWetMessage d.moisture_raw, "danger"⟩ :=
        (Option.some.inj h1).symm
      subst hv
      refine ⟨rfl, rfl, ⟨"", rfl⟩, ?_⟩
      intro m lvl hm
      simp at hm
    | some m0 =>
      have hA : applySoilMoistureCheck d.moisture_raw (some m0, wl) =
          (some (m0 ++ "\n\n" ++ tooWetMessage d.moisture_raw), "danger") := by
        unfold applySoilMoistureCheck
        rw [if_pos hraw]
      rw [hA] at h1
      have hv : v = ⟨true, m0 ++ "\n\n" ++ tooWetMessage d.moisture_raw, "danger"⟩ :=
        (Option.some.inj h1).symm
      subst hv
      refine ⟨rfl, rfl, ⟨m0 ++ "\n\n", rfl⟩, ?_⟩
      intro m lvl hm
      have := Option.some.inj hm
      have hm0 : m0 = m := by
        have := congrArg Prod.fst this
        exact Option.some.inj this
      rw [hm0]

/-- C4 witness: raw moisture 300 with no same-day history — the verdict
is allowed with severity danger and the over-moisture message. -/
theorem C4_witness :
    (Verdict.mk true (tooWetMessage 300) "danger").allowed = true ∧
    (Verdict.mk true (tooWetMessage 300) "danger").level = "danger" :=
  let h := C4_over_moisture .absent ⟨0, 0⟩ ⟨300, 101, 22, none⟩
    ⟨true, tooWetMessage 300, "danger"⟩ (normalizeSkipFlag .absent ⟨0, 0⟩).2
    rfl (by decide) rfl
  ⟨h.1, h.2.1⟩

/-! ## C6: lazy daily resets -/

def C6store : StoredFile :=
  .content
    { last_watering_date := some 100
      watering_count_today := some 2 }

/-- C6 counterexample: `load_config` performs no daily normalization of
the watering counter — a stored record whose watering date is day 100 is
returned with counter 2 on day 101, so the claimed read-time invariant
(stale date implies counter 0) fails at the load entry point. -/
theorem C6_counterexample :
    (load_config C6store).last_watering_date = some 100 ∧
    (load_config C6store).watering_count_today = 2 ∧
    ¬((load_config C6store).last_watering_date ≠ some 101 →
      (load_config C6store).watering_count_today = 0) := by
  refine ⟨rfl, rfl, ?_⟩
  decide

/-- C6 amended: the skip-flag half of the invariant is enforced lazily in
`check_watering_restrictions` (after the connectivity gate): the store it
leaves behind always carries today's skip date, and its persisted flag is
true only if the stored flag was already set with today's date.  The
watering-counter half is not enforced at read time: `load_config` returns
the stored counter unchanged (it does not even observe the current date);
the counter is only reset inside `water_plant`'s success path. -/
theorem C6_amended (store : StoredFile) (clock : Clock) (sensor : Option SensorData)
    (p : PartialConfig) :
    (load_config (check_watering_restrictions true store clock sensor).2).dont_ask_again_date =
      some clock.day ∧
    ((load_config (check_watering_restrictions true store clock sensor).2).dont_ask_again_today = true →
      (load_config store).dont_ask_again_today = true ∧
      (load_config store).dont_ask_again_date = some clock.day) ∧
    (load_config (.content p)).watering_count_today = p.watering_count_today.getD 0 := by
  rw [check_true_snd]
  by_cases hd : (load_config store).dont_ask_again_date = some clock.day
  · rw [norm_snd_of_eq store clock hd]
    exact ⟨hd, fun hf => ⟨hf, hd⟩, rfl⟩
  · unfold normalizeSkipFlag
    refine ⟨?_, ?_, rfl⟩ <;> simp [hd, load_save]

/-- C6 amended witness: a fresh-day evaluation stamps today's date into
the persisted skip field. -/
theorem C6_witness :
    (load_config (check_watering_restrictions true C6store ⟨0, 101⟩ none).2).dont_ask_again_date =
      some 101 :=
  (C6_amended C6store ⟨0, 101⟩ none {}).1

/-! ## C10: the frequency-check parses cannot fail on reachable states -/

/-- The watering-history invariant: whenever a last-watering date is
recorded, a last-watering timestamp is recorded too. -/
def WateringHistoryInv (s : StoredFile) : Prop :=
  (load_config s).last_watering_date ≠ none → (load_config s).last_watering ≠ none

theorem norm_snd_inv (s : StoredFile) (k : Clock) (h : WateringHistoryInv s) :
    WateringHistoryInv (normalizeSkipFlag s k).2 := by
  unfold normalizeSkipFlag
  by_cases hd : (load_config s).dont_ask_again_date = some k.day
  · simpa [hd] using h
  · simp only [ne_eq, hd, not_false_eq_true, if_true]
    unfold WateringHistoryInv at h ⊢
    simpa [load_save] using h

theorem reach_inv {s : StoredFile} (h : Reach s) : WateringHistoryInv s := by
  induction h with
  | init => intro hd; exact absurd rfl hd
  | water connected dr k hr ih =>
    obtain ⟨succ, msg⟩ := dr
    cases connected
    · exact ih
    · cases succ
      · exact ih
      · intro hdate
        simp [water_plant, load_save]
  | restrict connected k sd hr ih =>
    cases connected
    · exact ih
    · exact norm_snd_inv _ k ih
  | dontAsk k hr ih =>
    intro hdate
    unfold WateringHistoryInv at ih
    simp only [setDontAskToday, load_save] at hdate ⊢
    exact ih hdate
  | menu u hr ih =>
    intro hdate
    unfold WateringHistoryInv at ih
    simp only [update_config, load_save] at hdate ⊢
    exact ih hdate

theorem freq_ne_none (c : Config) (k : Clock)
    (hInv : c.last_watering_date ≠ none → c.last_watering ≠ none) :
    frequencyCheck c k ≠ none := by
  unfold frequencyCheck
  cases hld : c.last_watering_date with
  | none => simp
  | some ld =>
    have hlw := hInv (by simp [hld])
    cases hlw2 : c.last_watering with
    | none => exact absurd hlw2 hlw
    | some lastTs =>
      simp only [hlw2]
      split_ifs <;> simp

theorem crash_free (s : StoredFile) (hInv : WateringHistoryInv s)
    (connected : Bool) (k : Clock) (sd : Option SensorData) :
    (check_watering_restrictions connected s k sd).1 ≠ none := by
  cases connected
  · simp [check_watering_restrictions]
  · rw [check_true_fst]
    unfold checkAfterSkipReset
    have hInv2 : (normalizeSkipFlag s k).1.last_watering_date ≠ none →
        (normalizeSkipFlag s k).1.last_watering ≠ none := by
      rw [norm_fst_lw, norm_fst_lwd]
      exact hInv
    split
    · simp
    · cases hf : frequencyCheck (normalizeSkipFlag s k).1 k with
      | none => exact absurd hf (freq_ne_none _ k hInv2)
      | some warn =>
        cases sd with
        | none => simp
        | some d =>
          rcases hA : applySoilMoistureCheck d.moisture_raw warn with ⟨_ | m, lvl⟩ <;>
            simp [hA]

/-- C10: every store reachable from the initial state through the
program's own write paths satisfies the watering-history invariant (a
recorded last-watering date implies a recorded timestamp), and on such
stores `check_watering_restrictions` never takes the raising
`fromisoformat(None)` path — it always returns a verdict. -/
theorem C10_reachable_no_crash (s : StoredFile) (h : Reach s) :
    ((load_config s).last_watering_date ≠ none → (load_config s).last_watering ≠ none) ∧
    ∀ (connected : Bool) (clock : Clock) (sensor : Option SensorData),
      (check_watering_restrictions connected s clock sensor).1 ≠ none :=
  ⟨reach_inv h, fun connected clock sensor => crash_free s (reach_inv h) connected clock sensor⟩

/-- C10 witness: after one successful watering from the initial state, a
later same-day evaluation with no sensor data still returns a verdict
rather than raising. -/
theorem C10_witness :
    (check_watering_restrictions true
        (water_plant true (true, "Полив выполнен успешно") StoredFile.absent ⟨0, 0⟩).2
        ⟨3600, 0⟩ none).1 ≠ none :=
  (C10_reachable_no_crash _
      (Reach.water true (true, "Полив выполнен успешно") ⟨0, 0⟩ Reach.init)).2
    true ⟨3600, 0⟩ none
